import Mathlib

/-!
Shallow Lean embedding of the decision-and-build engine of the
iPod-RedBook-Audio-Converter repository (packages `ipodrb` and `yangon`),
together with theorems checking the natural-language specification against it.

The embedding follows the Python source files:
  * `ipodrb/models/plan.py`, `yangon/models/album.py`, `ipodrb/models/config.py`
  * `ipodrb/planner/defaults.py`
  * `yangon/planner/validator.py`, `yangon/planner/resolver.py`
  * `ipodrb/cache/manager.py`
  * `ipodrb/converter/transcoder.py`, `yangon/converter/verifier.py`
  * `ipodrb/converter/pipeline.py`

Python `int` is modelled as `Int`, `float` as `Rat`, `str` as `String`,
`None`-able values as `Option`, raised exceptions as `Except`, and the
filesystem / subprocess environment as explicit oracle structures.
Python truthiness of an optional integer (`if x:` is false for both
`None` and `0`) is modelled by `pyTruthyInt`.
-/

namespace IpodRB

/-- Python truthiness of an `int | None` value: `None` and `0` are falsy. -/
def pyTruthyInt : Option Int → Bool
  | none => false
  | some n => n != 0

/-- Python truthiness of a `str | None` value: `None` and `""` are falsy. -/
def pyTruthyStr : Option String → Bool
  | none => false
  | some s => s != ""

/-- `Action` enum from `ipodrb/models/plan.py` (same values in `yangon`). -/
inductive Action where
  | ALAC_PRESERVE
  | ALAC_16_44
  | AAC
  | PASS_MP3
  | SKIP
deriving DecidableEq, Repr

/-- The `str` value of each `Action` enum member. -/
def Action.value : Action → String
  | .ALAC_PRESERVE => "ALAC_PRESERVE"
  | .ALAC_16_44 => "ALAC_16_44"
  | .AAC => "AAC"
  | .PASS_MP3 => "PASS_MP3"
  | .SKIP => "SKIP"

/-- `AudioFormat` enum from `yangon/models/album.py`. -/
inductive AudioFormat where
  | FLAC | WAV | AIFF | ALAC | AAC | MP3 | OGG | OPUS | WMA | M4A
  | APE | WV | SHN | UNKNOWN
deriving DecidableEq, Repr

/-- `AudioFormat.is_lossless` property from `yangon/models/album.py`. -/
def AudioFormat.is_lossless (f : AudioFormat) : Bool :=
  f ∈ [AudioFormat.FLAC, .WAV, .AIFF, .ALAC, .APE, .WV, .SHN]

/-- `Track` model from `yangon/models/album.py` (fields used by the planner;
paths are modelled as strings, `mtime` as a rational). -/
structure Track where
  path : String
  format : AudioFormat
  sample_rate : Int
  bit_depth : Option Int := none
  channels : Int
  duration_seconds : Rat
  title : Option String := none
  artist : Option String := none
  album : Option String := none
  album_artist : Option String := none
  track_number : Option Int := none
  track_total : Option Int := none
  disc_number : Option Int := none
  disc_total : Option Int := none
  year : Option Int := none
  compilation : Bool := false
  mtime : Rat
  size_bytes : Int
deriving DecidableEq, Repr

/-- `AlbumMetadata` model from `yangon/models/album.py`. -/
structure AlbumMetadata where
  artist : String := ""
  album : String := ""
  album_artist : Option String := none
  year : Option Int := none
  is_compilation : Bool := false
  folder_art_candidates : List String := []
deriving DecidableEq, Repr

/-- `Album` model from `yangon/models/album.py` (fields used by the planner). -/
structure Album where
  album_id : String
  source_path : String
  tracks : List Track
  metadata : AlbumMetadata
  max_sample_rate : Int := 44100
  max_bit_depth : Option Int := some 16
  source_formats : Finset AudioFormat := ∅
deriving DecidableEq

/-- `Album.is_mp3_only` property: the format set is exactly `{MP3}`. -/
def Album.is_mp3_only (a : Album) : Bool :=
  a.source_formats = ({AudioFormat.MP3} : Finset AudioFormat)

/-- `compute_default_action` from `ipodrb/planner/defaults.py` (the module
`yangon.planner.resolver` imports the same symbol). -/
def compute_default_action (album : Album) : Action :=
  if album.source_formats = ∅ then
    Action.SKIP
  else if album.is_mp3_only then
    Action.PASS_MP3
  else
    let lossless_formats : Finset AudioFormat :=
      {AudioFormat.FLAC, .WAV, .AIFF, .ALAC, .APE, .WV, .SHN}
    let has_lossless := (album.source_formats ∩ lossless_formats).Nonempty
    if has_lossless then Action.ALAC_PRESERVE else Action.AAC

/-- Return value of `compute_target_parameters` (the Python dict with keys
`target_sample_rate`, `target_bit_depth`, `apply_dither`). -/
structure TargetParams where
  target_sample_rate : Int
  target_bit_depth : Option Int
  apply_dither : Bool
deriving DecidableEq, Repr

/-- `compute_target_parameters` from `ipodrb/planner/defaults.py`,
lines 49-118.  The Python conditions `if source_bit_depth and ...` and
`if source_bit_depth:` use integer truthiness (0 behaves like `None`). -/
def compute_target_parameters (source_sample_rate : Int)
    (source_bit_depth : Option Int) (action : Action) : TargetParams :=
  let target_sr := source_sample_rate
  let target_bd := source_bit_depth
  let apply_dither := false
  let max_sample_rate : Int := 44100
  let max_bit_depth : Int := 16
  let target_sr := if source_sample_rate > max_sample_rate then max_sample_rate else target_sr
  if action = Action.ALAC_PRESERVE ∨ action = Action.ALAC_16_44 then
    let st :=
      if pyTruthyInt source_bit_depth ∧ source_bit_depth.getD 0 > max_bit_depth then
        (some max_bit_depth, true)
      else if source_bit_depth = none then
        (some 16, apply_dither)
      else
        (target_bd, apply_dither)
    let target_bd := st.1
    let apply_dither := st.2
    if action = Action.ALAC_16_44 then
      let target_sr := min source_sample_rate max_sample_rate
      let target_bd :=
        if pyTruthyInt source_bit_depth then
          some (min (source_bit_depth.getD 0) max_bit_depth)
        else
          some 16
      ⟨target_sr, target_bd, apply_dither⟩
    else
      ⟨target_sr, target_bd, apply_dither⟩
  else if action = Action.AAC then
    ⟨min source_sample_rate max_sample_rate, none, apply_dither⟩
  else if action = Action.PASS_MP3 then
    ⟨source_sample_rate, source_bit_depth, apply_dither⟩
  else
    ⟨target_sr, target_bd, apply_dither⟩

/-! SHA-256 (the `hashlib.sha256(...).hexdigest()` call in
`yangon/planner/resolver.py` — `hashlib` is the Python standard library's
implementation of FIPS 180-4 SHA-256, reproduced here over byte lists). -/

namespace Sha256

/-- 32-bit right rotation. -/
def rotr (n x : Nat) : Nat := ((x >>> n) ||| (x <<< (32 - n))) % 4294967296

/-- FIPS 180-4 big Sigma-0. -/
def bigS0 (x : Nat) : Nat := rotr 2 x ^^^ rotr 13 x ^^^ rotr 22 x

/-- FIPS 180-4 big Sigma-1. -/
def bigS1 (x : Nat) : Nat := rotr 6 x ^^^ rotr 11 x ^^^ rotr 25 x

/-- FIPS 180-4 small sigma-0. -/
def smallS0 (x : Nat) : Nat := rotr 7 x ^^^ rotr 18 x ^^^ (x >>> 3)

/-- FIPS 180-4 small sigma-1. -/
def smallS1 (x : Nat) : Nat := rotr 17 x ^^^ rotr 19 x ^^^ (x >>> 10)

/-- FIPS 180-4 Ch function (complement taken modulo 2^32). -/
def ch (x y z : Nat) : Nat := (x &&& y) ^^^ ((x ^^^ 4294967295) &&& z)

/-- FIPS 180-4 Maj function. -/
def maj (x y z : Nat) : Nat := (x &&& y) ^^^ (x &&& z) ^^^ (y &&& z)

/-- The 64 SHA-256 round constants. -/
def K : List Nat :=
  [1116352408, 1899447441, 3049323471, 3921009573, 961987163,
   1508970993, 2453635748, 2870763221, 3624381080, 310598401,
   607225278, 1426881987, 1925078388, 2162078206, 2614888103,
   3248222580, 3835390401, 4022224774, 264347078, 604807628,
   770255983, 1249150122, 1555081692, 1996064986, 2554220882,
   2821834349, 2952996808, 3210313671, 3336571891, 3584528711,
   113926993, 338241895, 666307205, 773529912, 1294757372,
   1396182291, 1695183700, 1986661051, 2177026350, 2456956037,
   2730485921, 2820302411, 3259730800, 3345764771, 3516065817,
   3600352804, 4094571909, 275423344, 430227734, 506948616,
   659060556, 883997877, 958139571, 1322822218, 1537002063,
   1747873779, 1955562222, 2024104815, 2227730452, 2361852424,
   2428436474, 2756734187, 3204031479, 3329325298]

/-- Initial hash values. -/
def initH : List Nat :=
  [1779033703, 3144134277, 1013904242,
   2773480762, 1359893119, 2600822924,
   528734635, 1541459225]

/-- Merkle-Damgard padding: append `0x80`, zero bytes to 56 mod 64, then the
bit length as 8 big-endian bytes. -/
def pad (msg : List Nat) : List Nat :=
  let len := msg.length
  let bitlen := 8 * len
  let zeros := (64 - ((len + 9) % 64)) % 64
  msg ++ [0x80] ++ List.replicate zeros 0 ++
    (List.range 8).map (fun i => (bitlen >>> (56 - 8 * i)) % 256)

/-- Group a byte list into big-endian 32-bit words. -/
def toWords : List Nat → List Nat
  | a :: b :: c :: d :: rest => (((a * 256 + b) * 256 + c) * 256 + d) :: toWords rest
  | _ => []

/-- Split a byte list into 64-byte chunks. -/
def chunks (l : List Nat) : List (List Nat) :=
  if hne : l = [] then []
  else l.take 64 :: chunks (l.drop 64)
termination_by l.length
decreasing_by
  simp only [List.length_drop]
  have : l.length ≠ 0 := fun hl => hne (List.length_eq_zero.mp hl)
  omega

/-- Extend the message schedule by `fuel` additional words. -/
def extendW : Nat → List Nat → List Nat
  | 0, w => w
  | fuel + 1, w =>
    let i := w.length
    let wi := (smallS1 (w.getD (i - 2) 0) + w.getD (i - 7) 0 +
               smallS0 (w.getD (i - 15) 0) + w.getD (i - 16) 0) % 4294967296
    extendW fuel (w ++ [wi])

/-- Working state of one compression round. -/
structure Hs where
  a : Nat
  b : Nat
  c : Nat
  d : Nat
  e : Nat
  f : Nat
  g : Nat
  h : Nat

/-- One SHA-256 compression round. -/
def round (s : Hs) (kw : Nat × Nat) : Hs :=
  let t1 := (s.h + bigS1 s.e + ch s.e s.f s.g + kw.1 + kw.2) % 4294967296
  let t2 := (bigS0 s.a + maj s.a s.b s.c) % 4294967296
  ⟨(t1 + t2) % 4294967296, s.a, s.b, s.c, (s.d + t1) % 4294967296, s.e, s.f, s.g⟩

/-- Compress one 64-byte chunk into the running hash value. -/
def compress (hv : List Nat) (chunk : List Nat) : List Nat :=
  let w := extendW 48 (toWords chunk)
  let s0 : Hs := ⟨hv.getD 0 0, hv.getD 1 0, hv.getD 2 0, hv.getD 3 0,
                  hv.getD 4 0, hv.getD 5 0, hv.getD 6 0, hv.getD 7 0⟩
  let s := (K.zip w).foldl round s0
  [(s0.a + s.a) % 4294967296, (s0.b + s.b) % 4294967296,
   (s0.c + s.c) % 4294967296, (s0.d + s.d) % 4294967296,
   (s0.e + s.e) % 4294967296, (s0.f + s.f) % 4294967296,
   (s0.g + s.g) % 4294967296, (s0.h + s.h) % 4294967296]

/-- SHA-256 of a byte list, as eight 32-bit words. -/
def sha256Words (msg : List Nat) : List Nat :=
  (chunks (pad msg)).foldl compress initH

/-- Lowercase hexadecimal digit. -/
def hexChar (n : Nat) : Char :=
  if n < 10 then Char.ofNat (48 + n) else Char.ofNat (87 + n)

/-- A 32-bit word as 8 lowercase hex characters. -/
def wordHex (n : Nat) : String :=
  String.mk ((List.range 8).map (fun i => hexChar ((n >>> (28 - 4 * i)) % 16)))

/-- UTF-8 bytes of a string. -/
def strBytes (s : String) : List Nat := s.toUTF8.toList.map (fun b => b.toNat)

/-- `hashlib.sha256(s.encode()).hexdigest()`. -/
def hexdigest (s : String) : String :=
  String.join ((sha256Words (strBytes s)).map wordHex)

end Sha256

/-- ASCII whitespace, as stripped by Python `str.strip()`. -/
def pyIsSpace (c : Char) : Bool :=
  c = ' ' ∨ c = '\t' ∨ c = '\n' ∨ c = '\x0b' ∨ c = '\x0c' ∨ c = '\r'

/-- Python `str.strip()`: remove leading and trailing whitespace. -/
def pyStrip (s : String) : String :=
  String.mk (((s.toList.dropWhile pyIsSpace).reverse.dropWhile pyIsSpace).reverse)

/-- Uppercase one ASCII character, as Python `str.upper()` does. -/
def pyUpperChar (c : Char) : Char :=
  if 'a' ≤ c ∧ c ≤ 'z' then Char.ofNat (c.toNat - 32) else c

/-- Python `str.upper()` (over the ASCII action strings in play). -/
def pyUpper (s : String) : String := String.mk (s.toList.map pyUpperChar)

/-- Python `a or b` on an `int | None` left operand: keep `a` when truthy
(`None` and `0` are falsy), else `b`. -/
def pyOrInt (a : Option Int) (b : Int) : Int :=
  if pyTruthyInt a then a.getD 0 else b

/-- Python `a or b` on a `str` left operand: keep `a` when non-empty. -/
def pyOrStr (a b : String) : String := if a ≠ "" then a else b

/-- `ValidationError` from `yangon/planner/validator.py`: message plus a
machine-readable error code. -/
structure ValidationError where
  message : String
  error_code : String := "INVALID_ENUM"
deriving DecidableEq, Repr

/-- A decision-sheet row for one album (the dict read from XLSX:
`user_action`, `aac_target_kbps`, `skip`; absent keys are `None`/false). -/
structure Decision where
  user_action : Option String := none
  aac_target_kbps : Option Int := none
  skip : Bool := false
deriving DecidableEq, Repr

/-- `ApplyConfig` from `ipodrb/models/config.py` (fields the planner,
cache and pipeline consult). -/
structure ApplyConfig where
  output_root : String
  dry_run : Bool := false
  fail_fast : Bool := false
  threads : Int := 8
  force : Bool := false
  default_aac_bitrate : Int := 256
  allowed_aac_bitrates : Finset Int := {128, 192, 256, 320}
  target_sample_rate : Int := 44100
deriving DecidableEq

/-- `validate_action` from `yangon/planner/validator.py`, lines 14-60.
The synonym table is checked after `strip().upper()`; the final
`Action(action_str)` direct enum parse adds no further matches because every
enum value already appears as a key of the synonym table. -/
def validate_action (action_str : String) : Except ValidationError Action :=
  if action_str = "" then
    .error ⟨"Action cannot be empty", "INVALID_ENUM"⟩
  else
    let a := pyUpper (pyStrip action_str)
    if a = "ALAC" ∨ a = "ALAC_PRESERVE" ∨ a = "ALAC-PRESERVE" then
      .ok Action.ALAC_PRESERVE
    else if a = "ALAC_16_44" ∨ a = "ALAC_16/44" ∨ a = "ALAC-16-44" then
      .ok Action.ALAC_16_44
    else if a = "AAC" then
      .ok Action.AAC
    else if a = "PASS_MP3" ∨ a = "PASS-MP3" ∨ a = "MP3" ∨ a = "PASSTHROUGH" then
      .ok Action.PASS_MP3
    else if a = "SKIP" ∨ a = "NONE" then
      .ok Action.SKIP
    else
      .error ⟨"Invalid action " ++ a, "INVALID_ENUM"⟩

/-- `validate_aac_bitrate` from `yangon/planner/validator.py`, lines 63-98.
The decision contract supplies an integer or nothing, so the
string-to-int coercion branch of the Python code is the identity here. -/
def validate_aac_bitrate (bitrate : Option Int) (allowed : Option (Finset Int)) :
    Except ValidationError Int :=
  let allowedSet := allowed.getD {128, 192, 256, 320}
  match bitrate with
  | none => .ok 256
  | some b =>
    if b ∈ allowedSet then .ok b
    else .error ⟨"Invalid AAC bitrate " ++ toString b, "INVALID_ENUM"⟩

/-- `ResolvedAction` from `ipodrb/models/plan.py`. -/
structure ResolvedAction where
  album_id : String
  action : Action
  aac_bitrate_kbps : Option Int := none
  skip : Bool := false
  default_action : Action
  user_action : Option Action := none
  source : String := "default"
deriving DecidableEq, Repr

/-- `resolve_album_action` from `yangon/planner/resolver.py`, lines 13-72.
A raised `ValidationError` (only `validate_aac_bitrate` can raise here:
`validate_action` failures are caught and fall back to the default) is the
`Except.error` case. -/
def resolve_album_action (album : Album) (decision : Decision)
    (config : ApplyConfig) : Except ValidationError ResolvedAction :=
  let default_action := compute_default_action album
  if decision.skip then
    .ok ⟨album.album_id, Action.SKIP, none, true, default_action,
         some Action.SKIP, "user_override"⟩
  else
    let user_action : Option Action :=
      if pyTruthyStr decision.user_action then
        match validate_action (decision.user_action.getD "") with
        | .ok a => some a
        | .error _ => none
      else
        none
    let resolved_action := user_action.getD default_action
    match (if resolved_action = Action.AAC then
             (validate_aac_bitrate decision.aac_target_kbps
               (some config.allowed_aac_bitrates)).map some
           else .ok none) with
    | .error e => .error e
    | .ok aac_bitrate =>
      .ok ⟨album.album_id, resolved_action, aac_bitrate, false, default_action,
           user_action, if user_action.isSome then "user_override" else "default"⟩

/-- `generate_conversion_tag` from `yangon/planner/resolver.py`, lines 75-110. -/
def generate_conversion_tag (action : Action) (source_sample_rate : Int)
    (source_bit_depth : Option Int) (target_sample_rate : Int)
    (target_bit_depth : Option Int) (aac_bitrate : Option Int) : String :=
  if action = Action.PASS_MP3 then
    "[MP3]"
  else if action = Action.AAC then
    "[AAC-" ++ toString (pyOrInt aac_bitrate 256) ++ "k]"
  else if action = Action.ALAC_PRESERVE ∨ action = Action.ALAC_16_44 then
    let was_downsampled := source_sample_rate > 44100 ∧ target_sample_rate = 44100
    let was_bit_reduced := pyOrInt source_bit_depth 16 > 16 ∧ target_bit_depth = some 16
    if was_downsampled ∨ was_bit_reduced then "[ALAC-RedBook]" else "[ALAC]"
  else
    ""

/-- Final component of a path string (Python `Path.name`). -/
def pathName (p : String) : String := ((p.splitOn "/").getLast?).getD ""

/-- Python `Path.stem`: final component without its last extension; a
leading dot does not start an extension. -/
def pathStem (p : String) : String :=
  let name := pathName p
  let cs := name.toList
  match cs.reverse.findIdx? (· = '.') with
  | none => name
  | some i =>
    let keep := cs.length - 1 - i
    if keep = 0 then name else String.mk (cs.take keep)

/-- The `sanitize` helper inside `generate_output_path`: replace
filesystem-invalid characters with underscores, strip surrounding
whitespace, strip trailing dots. -/
def sanitize (s : String) : String :=
  let invalid := "<>:\"/\\|?*"
  ((s.map (fun c => if invalid.contains c then '_' else c)).trim).dropRightWhile (· = '.')

/-- Python `f"{n:02d}"`: sign-aware zero padding to width 2. -/
def format02d (n : Int) : String :=
  let sign := if n < 0 then "-" else ""
  let digits := toString n.natAbs
  sign ++ String.mk (List.replicate (2 - (sign.length + digits.length)) '0') ++ digits

/-- `generate_output_path` from `yangon/planner/resolver.py`, lines 113-186.
Path joining is modelled as string concatenation with `/`. -/
def generate_output_path (track : Track) (album : Album) (config : ApplyConfig)
    (action : Action) (target_sample_rate : Int) (target_bit_depth : Option Int)
    (aac_bitrate : Option Int) : String :=
  let ext := if action = Action.PASS_MP3 then ".mp3" else ".m4a"
  let album_artist :=
    pyOrStr (album.metadata.album_artist.getD "")
      (pyOrStr album.metadata.artist "Unknown Artist")
  let album_name := pyOrStr album.metadata.album "Unknown Album"
  let year := pyOrInt album.metadata.year 0
  let title := pyOrStr (track.title.getD "") (pathStem track.path)
  let track_num := pyOrInt track.track_number 0
  let disc_num := pyOrInt track.disc_number 1
  let album_artist := sanitize album_artist
  let album_name := sanitize album_name
  let title := sanitize title
  let discPrefix :=
    if album.metadata.is_compilation ∨
        (pyTruthyInt track.disc_total ∧ track.disc_total.getD 0 > 1) then
      toString disc_num ++ "-"
    else
      ""
  let album_folder :=
    if year ≠ 0 then toString year ++ " - " ++ album_name else album_name
  let conversion_tag :=
    generate_conversion_tag action track.sample_rate track.bit_depth
      target_sample_rate target_bit_depth aac_bitrate
  let filename :=
    discPrefix ++ format02d track_num ++ " " ++ title ++ " " ++ conversion_tag ++ ext
  config.output_root ++ "/" ++ album_artist ++ "/" ++ album_folder ++ "/" ++ filename

/-- The list of component strings digested by `compute_settings_hash`
(`yangon/planner/resolver.py`, lines 200-208): note the source path is not
among them.  The `mtime` rational and the integers are rendered with
`toString`, an injective decimal rendering standing in for Python `str`. -/
def settingsHashComponents (mtime : Rat) (size_bytes : Int) (action : Action)
    (aac_bitrate : Option Int) (target_sr : Int) (target_bd : Option Int)
    (tool_version : String) : List String :=
  [toString mtime, toString size_bytes, action.value,
   toString (pyOrInt aac_bitrate 0), toString target_sr,
   toString (pyOrInt target_bd 0), tool_version]

/-- `compute_settings_hash` from `yangon/planner/resolver.py`, lines 189-209:
first 16 hex characters of the SHA-256 of the `:`-joined components. -/
def compute_settings_hash (track : Track) (action : Action)
    (aac_bitrate : Option Int) (target_sr : Int) (target_bd : Option Int)
    (tool_version : String) : String :=
  (Sha256.hexdigest (String.intercalate ":"
    (settingsHashComponents track.mtime track.size_bytes action aac_bitrate
      target_sr target_bd tool_version))).take 16

/-- The tag payload assembled by `resolve_track_jobs` (the `tags` dict of a
`TrackJob`, with its ten fixed keys). -/
structure TagsPayload where
  title : Option String
  artist : Option String
  album : Option String
  album_artist : Option String
  track_number : Option Int
  track_total : Option Int
  disc_number : Option Int
  disc_total : Option Int
  year : Option Int
  compilation : Bool
deriving DecidableEq, Repr

/-- `TrackJob` from `ipodrb/models/plan.py`. -/
structure TrackJob where
  album_id : String
  source_path : String
  output_path : String
  action : Action
  target_codec : String
  target_sample_rate : Int
  target_bit_depth : Option Int
  aac_bitrate_kbps : Option Int := none
  apply_dither : Bool := false
  tags : TagsPayload
  artwork_source : Option String := none
  source_mtime : Rat
  source_size : Int
  settings_hash : String := ""
deriving DecidableEq, Repr

/-- The per-track body of the `resolve_track_jobs` loop
(`yangon/planner/resolver.py`, lines 236-310); `none` is the `continue`
taken for an action with no codec mapping. -/
def trackJobFor (album : Album) (resolved_action : ResolvedAction)
    (config : ApplyConfig) (tool_version : String) (track : Track) :
    Option TrackJob :=
  let action := resolved_action.action
  let params := compute_target_parameters track.sample_rate track.bit_depth action
  let target_codec? : Option String :=
    if action = Action.ALAC_PRESERVE ∨ action = Action.ALAC_16_44 then some "alac"
    else if action = Action.AAC then some "aac"
    else if action = Action.PASS_MP3 then some "copy"
    else none
  match target_codec? with
  | none => none
  | some target_codec =>
    let output_path := generate_output_path track album config action
      params.target_sample_rate params.target_bit_depth resolved_action.aac_bitrate_kbps
    let settings_hash := compute_settings_hash track action
      resolved_action.aac_bitrate_kbps params.target_sample_rate
      params.target_bit_depth tool_version
    let tags : TagsPayload :=
      { title := track.title
        artist := track.artist
        album := track.album
        album_artist :=
          if pyTruthyStr track.album_artist then track.album_artist
          else album.metadata.album_artist
        track_number := track.track_number
        track_total := track.track_total
        disc_number := track.disc_number
        disc_total := track.disc_total
        year := if pyTruthyInt track.year then track.year else album.metadata.year
        compilation := track.compilation || album.metadata.is_compilation }
    let artwork_source := album.metadata.folder_art_candidates.head?
    some
      { album_id := album.album_id
        source_path := track.path
        output_path := output_path
        action := action
        target_codec := target_codec
        target_sample_rate := params.target_sample_rate
        target_bit_depth := params.target_bit_depth
        aac_bitrate_kbps := resolved_action.aac_bitrate_kbps
        apply_dither := params.apply_dither
        tags := tags
        artwork_source := artwork_source
        source_mtime := track.mtime
        source_size := track.size_bytes
        settings_hash := settings_hash }

/-- `resolve_track_jobs` from `yangon/planner/resolver.py`, lines 212-312. -/
def resolve_track_jobs (album : Album) (resolved_action : ResolvedAction)
    (config : ApplyConfig) (tool_version : String) : List TrackJob :=
  if resolved_action.skip ∨ resolved_action.action = Action.SKIP then []
  else album.tracks.filterMap (trackJobFor album resolved_action config tool_version)

/-- One entry of `BuildPlan.validation_errors` (the dict appended in
`resolve_build_plan`). -/
structure PlanError where
  album_id : String
  error_code : String
  message : String
deriving DecidableEq, Repr

/-- `BuildPlan` from `ipodrb/models/plan.py`. -/
structure BuildPlan where
  jobs : List TrackJob := []
  skipped_albums : List String := []
  validation_errors : List PlanError := []
deriving DecidableEq, Repr

/-- `decisions.get(album_id, {})`: look an album's decision up in the
decision mapping, defaulting to the empty decision. -/
def lookupDecision (decisions : List (String × Decision)) (album_id : String) :
    Decision :=
  ((decisions.find? (fun p => p.1 = album_id)).map Prod.snd).getD {}

/-- `resolve_build_plan` from `yangon/planner/resolver.py`, lines 315-364,
written as structural recursion over the album list: each album contributes
its jobs, its skipped id, or its validation error, in list order, exactly as
the imperative accumulation loop does.  Only `resolve_album_action` can
raise `ValidationError` inside the `try` block. -/
def resolve_build_plan (albums : List Album)
    (decisions : List (String × Decision)) (config : ApplyConfig)
    (tool_version : String := "0.1.0") : BuildPlan :=
  match albums with
  | [] => {}
  | album :: rest =>
    let tail := resolve_build_plan rest decisions config tool_version
    let decision := lookupDecision decisions album.album_id
    match resolve_album_action album decision config with
    | .error e =>
      { tail with
        validation_errors :=
          ⟨album.album_id, e.error_code, e.message⟩ :: tail.validation_errors }
    | .ok resolved =>
      if resolved.skip then
        { tail with skipped_albums := album.album_id :: tail.skipped_albums }
      else
        { tail with
          jobs := resolve_track_jobs album resolved config tool_version ++ tail.jobs }

/-- `ErrorCode` enum from `yangon/models/status.py`, lines 22-36. -/
inductive ErrorCode where
  | DECODE_FAIL | ENCODE_FAIL | PROBE_FAIL | TAG_READ_FAIL | TAG_WRITE_FAIL
  | ART_NOT_FOUND | ART_AMBIGUOUS | INVALID_ENUM | LOCKED_XLSX
  | OUTPUT_COLLISION | IO_ERROR | VERIFICATION_FAIL
deriving DecidableEq, Repr

/-- The `str` value of each `ErrorCode` member. -/
def ErrorCode.value : ErrorCode → String
  | .DECODE_FAIL => "DECODE_FAIL"
  | .ENCODE_FAIL => "ENCODE_FAIL"
  | .PROBE_FAIL => "PROBE_FAIL"
  | .TAG_READ_FAIL => "TAG_READ_FAIL"
  | .TAG_WRITE_FAIL => "TAG_WRITE_FAIL"
  | .ART_NOT_FOUND => "ART_NOT_FOUND"
  | .ART_AMBIGUOUS => "ART_AMBIGUOUS"
  | .INVALID_ENUM => "INVALID_ENUM"
  | .LOCKED_XLSX => "LOCKED_XLSX"
  | .OUTPUT_COLLISION => "OUTPUT_COLLISION"
  | .IO_ERROR => "IO_ERROR"
  | .VERIFICATION_FAIL => "VERIFICATION_FAIL"

/-- `TrackResult` from `ipodrb/models/plan.py` (the wall-clock
`started_at`/`completed_at` timestamps are omitted). -/
structure TrackResult where
  source_path : String
  output_path : Option String := none
  success : Bool := false
  error_code : Option String := none
  error_message : Option String := none
  output_codec : Option String := none
  output_sample_rate : Option Int := none
  output_bit_depth : Option Int := none
  output_size_bytes : Option Int := none
  duration_seconds : Option Rat := none
deriving DecidableEq, Repr

/-- One row of the SQLite `cache` table in `ipodrb/cache/manager.py`
(`source_path` is the primary key holding the row in `Cache`). -/
structure CacheRow where
  output_path : String
  source_mtime : Rat
  source_size : Int
  settings_hash : String
  output_codec : Option String := none
  output_sample_rate : Option Int := none
  output_bit_depth : Option Int := none
  output_size_bytes : Option Int := none
  duration_seconds : Option Rat := none
  built_at : String
deriving DecidableEq, Repr

/-- The cache table: at most one row per `source_path` primary key. -/
def Cache := String → Option CacheRow

/-- The dict returned by a `CacheManager.lookup` hit. -/
structure CacheHit where
  output_path : String
  output_codec : Option String
  output_sample_rate : Option Int
  output_bit_depth : Option Int
  output_size_bytes : Option Int
  duration_seconds : Option Rat
  built_at : String
deriving DecidableEq, Repr

/-- `CacheManager.lookup` from `ipodrb/cache/manager.py`, lines 66-133:
fetch the row keyed by the job's source path, then validate mtime within
0.001, exact size, settings hash and output path; any mismatch is `none`. -/
def cacheLookup (cache : Cache) (job : TrackJob) : Option CacheHit :=
  match cache job.source_path with
  | none => none
  | some row =>
    if abs (row.source_mtime - job.source_mtime) > 1 / 1000 then none
    else if row.source_size ≠ job.source_size then none
    else if row.settings_hash ≠ job.settings_hash then none
    else if row.output_path ≠ job.output_path then none
    else
      some ⟨row.output_path, row.output_codec, row.output_sample_rate,
            row.output_bit_depth, row.output_size_bytes, row.duration_seconds,
            row.built_at⟩

/-- `CacheManager.store` from `ipodrb/cache/manager.py`, lines 135-169:
return unchanged unless `result.success`; otherwise `INSERT OR REPLACE` the
single row keyed by the job's source path (`built_at` is the wall-clock
timestamp, passed in explicitly). -/
def cacheStore (cache : Cache) (job : TrackJob) (result : TrackResult)
    (built_at : String) : Cache :=
  if ¬ result.success then cache
  else fun key =>
    if key = job.source_path then
      some ⟨job.output_path, job.source_mtime, job.source_size, job.settings_hash,
            result.output_codec, result.output_sample_rate, result.output_bit_depth,
            result.output_size_bytes, result.duration_seconds, built_at⟩
    else cache key

/-- One stream object of the parsed FFprobe JSON (fields are `Option` where
the JSON key may be absent; `bits_per_raw_sample` is absent, present but
unparseable, or an integer). -/
structure StreamInfo where
  codec_type : String
  codec_name : Option String := none
  sample_rate : Option Int := none
  bits_per_sample : Option Int := none
  bits_per_raw_sample : Option (Option Int) := none
  duration : Option Rat := none
deriving DecidableEq, Repr

/-- The `format` object of the parsed FFprobe JSON. -/
structure ProbeFormat where
  duration : Option Rat := none
deriving DecidableEq, Repr

/-- Outcome of parsing the FFprobe stdout as JSON. -/
inductive ProbeParse where
  | invalidJson
  | parsed (streams : List StreamInfo) (format : ProbeFormat)
deriving DecidableEq, Repr

/-- Outcome of the FFprobe subprocess call in `verify_output`. -/
inductive ProbeOutcome where
  | timedOut
  | raised (msg : String)
  | completed (returncode : Int) (stderr : String) (parse : ProbeParse)
deriving DecidableEq, Repr

/-- The filesystem/subprocess facts `verify_output` observes about the
file being verified. -/
structure ProbeEnv where
  file_exists : Bool
  size_bytes : Int
  probe : ProbeOutcome
deriving DecidableEq, Repr

/-- `VerificationResult` from `yangon/converter/verifier.py`. -/
structure VerificationResult where
  success : Bool
  codec : Option String := none
  sample_rate : Option Int := none
  bit_depth : Option Int := none
  duration : Option Rat := none
  size_bytes : Option Int := none
  error_message : Option String := none
deriving DecidableEq, Repr

/-- Bit-depth extraction of `verify_output`: use `bits_per_sample` when
present and positive, else fall back to `bits_per_raw_sample` when present
and parseable. -/
def probeBitDepth (audio_stream : StreamInfo) : Option Int :=
  let fallback_raw : Option Int :=
    match audio_stream.bits_per_raw_sample with
    | some (some n) => some n
    | some none => none
    | none => none
  match audio_stream.bits_per_sample with
  | some b => if b > 0 then some b else fallback_raw
  | none => fallback_raw

/-- Duration extraction of `verify_output`: the format object's duration
when present, else the stream's, else 0.0. -/
def probeDuration (fmt : ProbeFormat) (audio_stream : StreamInfo) : Rat :=
  match fmt.duration with
  | some d => d
  | none => audio_stream.duration.getD 0

/-- The `expected_codecs` table of `verify_output`. -/
def expectedCodecs (target_codec : String) : List String :=
  if target_codec = "alac" then ["alac"]
  else if target_codec = "aac" then ["aac"]
  else if target_codec = "copy" then ["mp3", "mp3float"]
  else []

/-- `verify_output` from `yangon/converter/verifier.py`, lines 25-174,
over the probe environment. -/
def verify_output (output_path : String) (job : TrackJob) (env : ProbeEnv) :
    VerificationResult :=
  if ¬ env.file_exists then
    { success := false,
      error_message := some ("Output file does not exist: " ++ output_path) }
  else if env.size_bytes = 0 then
    { success := false, error_message := some "Output file is empty" }
  else
    match env.probe with
    | .timedOut =>
      { success := false, error_message := some "FFprobe timed out" }
    | .raised msg =>
      { success := false, error_message := some ("FFprobe failed: " ++ msg) }
    | .completed returncode stderr parse =>
      if returncode ≠ 0 then
        { success := false, error_message := some ("FFprobe error: " ++ stderr) }
      else
        match parse with
        | .invalidJson =>
          { success := false, error_message := some "Invalid FFprobe JSON output" }
        | .parsed streams fmt =>
          match streams.find? (fun s => s.codec_type = "audio") with
          | none =>
            { success := false,
              error_message := some "No audio stream found in output" }
          | some audio_stream =>
            if (audio_stream.codec_name.getD "") ∉
                expectedCodecs job.target_codec then
              ⟨false, some (audio_stream.codec_name.getD ""),
               some (audio_stream.sample_rate.getD 0),
               probeBitDepth audio_stream,
               some (probeDuration fmt audio_stream), some env.size_bytes,
               some ("Unexpected codec: " ++ (audio_stream.codec_name.getD ""))⟩
            else if job.target_codec ≠ "copy" ∧
                abs ((audio_stream.sample_rate.getD 0) -
                  job.target_sample_rate) > 100 then
              ⟨false, some (audio_stream.codec_name.getD ""),
               some (audio_stream.sample_rate.getD 0),
               probeBitDepth audio_stream,
               some (probeDuration fmt audio_stream), some env.size_bytes,
               some ("Sample rate mismatch: " ++
                 toString (audio_stream.sample_rate.getD 0))⟩
            else
              ⟨true, some (audio_stream.codec_name.getD ""),
               some (audio_stream.sample_rate.getD 0),
               probeBitDepth audio_stream,
               some (probeDuration fmt audio_stream), some env.size_bytes, none⟩

/-- Global `Config` from `ipodrb/models/config.py` (fields the transcoder
consults). -/
structure Config where
  tool_version : String := "0.1.0"
  ffmpeg_path : String := "ffmpeg"
  ffprobe_path : String := "ffprobe"
  ffmpeg_timeout : Int := 300
deriving DecidableEq, Repr

/-- Outcome of the FFmpeg `subprocess.run` call in `convert_track`. -/
inductive RunOutcome where
  | completed (returncode : Int) (stderr : String)
  | timedOut
  | raised (msg : String)
deriving DecidableEq, Repr

/-- The external effects `convert_track` can observe: the encode (or copy)
outcome, the probe facts for verification of the temp file, and whether
tag writing and the atomic rename raise (carrying the exception text). -/
structure ConvertEnv where
  encode : RunOutcome := .completed 0 ""
  copy_exn : Option String := none
  probe : ProbeEnv
  tag_exn : Option String := none
  rename_exn : Option String := none
deriving DecidableEq, Repr

/-- A `convert_track` run: the returned `TrackResult` plus the two
observable effects the claims talk about — whether `_cleanup(temp_path)`
was invoked, and whether the atomic rename happened. -/
structure ConvertTrace where
  result : TrackResult
  cleanup_called : Bool
  renamed : Bool
deriving DecidableEq, Repr

/-- `job.output_path.with_suffix(".tmp" + suffix)`: the temp path used by
`convert_track`. -/
def tempPathOf (p : String) : String :=
  let name := pathName p
  let stem := pathStem p
  let sfx := name.drop stem.length
  (p.dropRight name.length) ++ stem ++ ".tmp" ++ sfx

/-- A failure `TrackResult` as built by `convert_track`. -/
def failResult (job : TrackJob) (code : ErrorCode) (msg : Option String) :
    TrackResult :=
  { source_path := job.source_path, output_path := none, success := false,
    error_code := some code.value, error_message := msg }

/-- The success `TrackResult` as built by `convert_track` from the
verification result. -/
def successResult (job : TrackJob) (v : VerificationResult) : TrackResult :=
  { source_path := job.source_path, output_path := some job.output_path,
    success := true, output_codec := v.codec, output_sample_rate := v.sample_rate,
    output_bit_depth := v.bit_depth, output_size_bytes := v.size_bytes,
    duration_seconds := v.duration }

/-- `_handle_passthrough` from `ipodrb/converter/transcoder.py`,
lines 146-214: copy, verify, tag, rename; copy/rename exceptions are the
outer `except` returning `IO_ERROR` with cleanup. -/
def handlePassthrough (job : TrackJob) (temp_path : String) (env : ConvertEnv) :
    ConvertTrace :=
  match env.copy_exn with
  | some e => ⟨failResult job .IO_ERROR (some e), true, false⟩
  | none =>
    let verify_result := verify_output temp_path job env.probe
    if ¬ verify_result.success then
      ⟨failResult job .VERIFICATION_FAIL verify_result.error_message, true, false⟩
    else
      match env.tag_exn with
      | some e => ⟨failResult job .TAG_WRITE_FAIL (some e), true, false⟩
      | none =>
        match env.rename_exn with
        | some e => ⟨failResult job .IO_ERROR (some e), true, false⟩
        | none => ⟨successResult job verify_result, false, true⟩

/-- `convert_track` from `ipodrb/converter/transcoder.py`, lines 17-143.
Note: on a non-zero FFmpeg exit status the code returns the `ENCODE_FAIL`
result directly, without calling `_cleanup` — hence `cleanup_called = false`
on that path.  An `os.replace` exception in the non-passthrough path is
caught by the generic `except Exception` handler as `ENCODE_FAIL`. -/
def convert_track (job : TrackJob) (config : Option Config) (env : ConvertEnv) :
    ConvertTrace :=
  let timeout := (config.getD {}).ffmpeg_timeout
  let temp_path := tempPathOf job.output_path
  if job.action = Action.PASS_MP3 then
    handlePassthrough job temp_path env
  else
    match env.encode with
    | .timedOut =>
      ⟨failResult job .ENCODE_FAIL
        (some ("FFmpeg timed out after " ++ toString timeout ++ " seconds")),
       true, false⟩
    | .raised e =>
      ⟨failResult job .ENCODE_FAIL (some e), true, false⟩
    | .completed returncode stderr =>
      if returncode ≠ 0 then
        ⟨failResult job .ENCODE_FAIL (some ("FFmpeg failed: " ++ stderr.take 500)),
         false, false⟩
      else
        let verify_result := verify_output temp_path job env.probe
        if ¬ verify_result.success then
          ⟨failResult job .VERIFICATION_FAIL verify_result.error_message, true, false⟩
        else
          match env.tag_exn with
          | some e => ⟨failResult job .TAG_WRITE_FAIL (some e), true, false⟩
          | none =>
            match env.rename_exn with
            | some e => ⟨failResult job .ENCODE_FAIL (some e), true, false⟩
            | none => ⟨successResult job verify_result, false, true⟩

/-- What `future.result()` yields for one job in the pipeline's collection
loop: the worker's `TrackResult`, or a raised exception. -/
inductive WorkerOutcome where
  | ok (r : TrackResult)
  | exn (msg : String)
deriving DecidableEq, Repr

/-- Whether a worker outcome is a raised exception. -/
def WorkerOutcome.isExn : WorkerOutcome → Bool
  | .ok _ => false
  | .exn _ => true

/-- Mutable state of the result-collection loop of
`ConversionPipeline._run_parallel`, plus a trace of every `cache.store`
invocation. -/
structure RunState where
  results : List TrackResult := []
  completed_jobs : Nat := 0
  failed_jobs : Nat := 0
  cache : Cache
  cancel_requested : Bool := false
  stores : List (TrackJob × TrackResult) := []

/-- The collection loop of `_run_parallel` (`ipodrb/converter/pipeline.py`,
lines 189-226), folded over the job completions in `as_completed` order:
a successful result stores to the cache and emits completion; an
unsuccessful result only counts the failure; a raised exception counts the
failure, appends a synthetic error result and — only when fail-fast is
configured — requests cancellation and breaks. -/
def collectResults (fail_fast : Bool) (built_at : String) :
    List (TrackJob × WorkerOutcome) → RunState → RunState
  | [], st => st
  | (job, .ok result) :: rest, st =>
    if result.success then
      collectResults fail_fast built_at rest
        { st with
          completed_jobs := st.completed_jobs + 1
          cache := cacheStore st.cache job result built_at
          stores := st.stores ++ [(job, result)]
          results := st.results ++ [result] }
    else
      collectResults fail_fast built_at rest
        { st with
          failed_jobs := st.failed_jobs + 1
          results := st.results ++ [result] }
  | (job, .exn e) :: rest, st =>
    let error_result : TrackResult :=
      { source_path := job.source_path, success := false, error_message := some e }
    let st' :=
      { st with
        failed_jobs := st.failed_jobs + 1
        results := st.results ++ [error_result] }
    if fail_fast then
      { st' with cancel_requested := true }
    else
      collectResults fail_fast built_at rest st'

/-- A `_run_parallel` run: the jobs submitted to the pool (all of them, in
order, before any result is collected) and the final collection state. -/
structure RunParallelTrace where
  submitted : List TrackJob
  state : RunState

/-- `ConversionPipeline._run_parallel` from `ipodrb/converter/pipeline.py`,
lines 170-227, over an abstract completion order `outcomes`. -/
def run_parallel (config : ApplyConfig) (cache : Cache) (built_at : String)
    (outcomes : List (TrackJob × WorkerOutcome)) : RunParallelTrace :=
  { submitted := outcomes.map Prod.fst,
    state := collectResults config.fail_fast built_at outcomes { cache := cache } }

/-! ## Theorems -/

/-- C1 counterexample: for source bit depth 0 (defined) under the
`ALAC_16_44` action, `compute_target_parameters` returns target bit depth
16, which is strictly greater than the source bit depth — Python's `if
source_bit_depth:` treats 0 as falsy and routes it to the 16-bit default. -/
theorem c1_counterexample :
    (compute_target_parameters 44100 (some 0) Action.ALAC_16_44).target_bit_depth
      = some 16 ∧ ¬ ((16 : Int) ≤ 0) := by
  decide

/-- C1 (amended): for every source sample rate, source bit depth and action,
the target sample rate never exceeds the source sample rate; and whenever
the source bit depth is defined and nonzero and the target bit depth is
defined, the target bit depth never exceeds the source bit depth. -/
theorem c1_never_upconvert (source_sample_rate : Int)
    (source_bit_depth : Option Int) (action : Action) :
    (compute_target_parameters source_sample_rate source_bit_depth
      action).target_sample_rate ≤ source_sample_rate ∧
    (∀ b tb, source_bit_depth = some b → b ≠ 0 →
      (compute_target_parameters source_sample_rate source_bit_depth
        action).target_bit_depth = some tb → tb ≤ b) := by
  cases action <;> cases source_bit_depth <;>
    constructor <;>
    simp only [compute_target_parameters, pyTruthyInt, Option.getD,
      forall_eq_apply_imp_iff, Option.some.injEq, forall_eq'] <;>
    try intro b tb hb hnz htb
  all_goals first
    | (split_ifs <;> simp_all <;> omega)
    | (intro b tb hb hnz htb; split_ifs at htb ⊢ <;> simp_all <;> omega)
    | (intros; split_ifs at * <;> simp_all <;> omega)

/-- C1 witness: a 96kHz/24-bit source under `ALAC_16_44` is capped at
44.1kHz and the 24-bit source bound holds. -/
theorem c1_never_upconvert_witness :
    (compute_target_parameters 96000 (some 24)
      Action.ALAC_16_44).target_sample_rate ≤ 96000 ∧ (16 : Int) ≤ 24 := by
  refine ⟨(c1_never_upconvert 96000 (some 24) Action.ALAC_16_44).1, ?_⟩
  exact (c1_never_upconvert 96000 (some 24) Action.ALAC_16_44).2 24 16 rfl
    (by decide) (by decide)

/-- C7: `compute_default_action` returns SKIP for an album with no source
formats, PASS_MP3 when the formats are exactly the MP3 passthrough codec,
ALAC_PRESERVE when the formats intersect the lossless set, and AAC
otherwise; `validate_aac_bitrate` resolves an absent bitrate to the fixed
default 256 and validates a supplied bitrate against the allow-list. -/
theorem c7_default_action_resolution (album : Album)
    (allowed : Option (Finset Int)) (b : Int) :
    (album.source_formats = ∅ → compute_default_action album = Action.SKIP) ∧
    (album.is_mp3_only → compute_default_action album = Action.PASS_MP3) ∧
    (album.source_formats ≠ ∅ → ¬ album.is_mp3_only →
      ((album.source_formats ∩
          ({AudioFormat.FLAC, .WAV, .AIFF, .ALAC, .APE, .WV, .SHN} :
            Finset AudioFormat)).Nonempty →
        compute_default_action album = Action.ALAC_PRESERVE) ∧
      (album.source_formats ∩
          ({AudioFormat.FLAC, .WAV, .AIFF, .ALAC, .APE, .WV, .SHN} :
            Finset AudioFormat) = ∅ →
        compute_default_action album = Action.AAC)) ∧
    validate_aac_bitrate none allowed = .ok 256 ∧
    (b ∈ (allowed.getD {128, 192, 256, 320}) →
      validate_aac_bitrate (some b) allowed = .ok b) ∧
    (b ∉ (allowed.getD {128, 192, 256, 320}) →
      ∃ e, validate_aac_bitrate (some b) allowed = .error e) := by
  refine ⟨?_, ?_, ?_, ?_, ?_, ?_⟩
  · intro h
    simp [compute_default_action, h]
  · intro h
    have hne : album.source_formats ≠ ∅ := by
      have : album.source_formats = {AudioFormat.MP3} := by
        simpa [Album.is_mp3_only] using h
      simp [this]
    simp [compute_default_action, hne, h]
  · intro hne hmp3
    constructor
    · intro hint
      simp [compute_default_action, hne, hmp3, Finset.nonempty_iff_ne_empty.mp hint]
    · intro hint
      simp [compute_default_action, hne, hmp3, hint]
  · rfl
  · intro hb
    simp [validate_aac_bitrate, hb]
  · intro hb
    exact ⟨⟨"Invalid AAC bitrate " ++ toString b, "INVALID_ENUM"⟩,
      by simp [validate_aac_bitrate, hb]⟩

/-- C7 witness: a FLAC-only album defaults to ALAC_PRESERVE; an absent
bitrate resolves to 256; 256 passes and 999 fails the default allow-list. -/
theorem c7_default_action_resolution_witness :
    compute_default_action
        { album_id := "a", source_path := "p", tracks := [], metadata := {},
          source_formats := {AudioFormat.FLAC} } = Action.ALAC_PRESERVE ∧
    validate_aac_bitrate none none = .ok 256 ∧
    validate_aac_bitrate (some 256) none = .ok 256 ∧
    (∃ e, validate_aac_bitrate (some 999) none = .error e) := by
  refine ⟨?_, ?_, ?_, ?_⟩
  · exact (((c7_default_action_resolution
      { album_id := "a", source_path := "p", tracks := [], metadata := {},
        source_formats := {AudioFormat.FLAC} } none 256).2.2.1)
      (by decide) (by decide)).1 (by decide)
  · exact (c7_default_action_resolution
      { album_id := "a", source_path := "p", tracks := [], metadata := {},
        source_formats := {AudioFormat.FLAC} } none 256).2.2.2.1
  · exact (c7_default_action_resolution
      { album_id := "a", source_path := "p", tracks := [], metadata := {},
        source_formats := {AudioFormat.FLAC} } none 256).2.2.2.2.1 (by decide)
  · exact (c7_default_action_resolution
      { album_id := "a", source_path := "p", tracks := [], metadata := {},
        source_formats := {AudioFormat.FLAC} } none 999).2.2.2.2.2 (by decide)

/-- C2: `cacheLookup` returns a stored entry exactly when the row keyed by
the job's source path exists, its mtime is within the 0.001 tolerance of
the job's, its size, settings hash and output path match exactly; a
missing row or any mismatch yields `none`, and a hit is built from that
row's stored fields. -/
theorem c2_cache_lookup_validity (cache : Cache) (job : TrackJob)
    (row : CacheRow) :
    (cache job.source_path = none → cacheLookup cache job = none) ∧
    (cache job.source_path = some row →
      (cacheLookup cache job =
        (if abs (row.source_mtime - job.source_mtime) ≤ 1 / 1000 ∧
            row.source_size = job.source_size ∧
            row.settings_hash = job.settings_hash ∧
            row.output_path = job.output_path then
          some ⟨row.output_path, row.output_codec, row.output_sample_rate,
                row.output_bit_depth, row.output_size_bytes,
                row.duration_seconds, row.built_at⟩
        else
          none))) := by
  constructor
  · intro h
    simp [cacheLookup, h]
  · intro h
    simp only [cacheLookup, h]
    split_ifs with h1 h2 h3 h4 h5 <;> simp_all <;> linarith

/-- C2 witness: a concrete single-row cache hits on the matching job and
the hit carries the stored fields. -/
theorem c2_cache_lookup_validity_witness :
    cacheLookup
      (fun key => if key = "/lib/a.flac" then
        some ⟨"/out/a.m4a", 100, 500, "h1", some "alac", some 44100, some 16,
              some 400, some 180, "t"⟩
      else none)
      { album_id := "al", source_path := "/lib/a.flac",
        output_path := "/out/a.m4a", action := Action.ALAC_PRESERVE,
        target_codec := "alac", target_sample_rate := 44100,
        target_bit_depth := some 16,
        tags := ⟨none, none, none, none, none, none, none, none, none, false⟩,
        source_mtime := 100, source_size := 500, settings_hash := "h1" } =
    some ⟨"/out/a.m4a", some "alac", some 44100, some 16, some 400, some 180,
          "t"⟩ := by
  have h := (c2_cache_lookup_validity
      (fun key => if key = "/lib/a.flac" then
        some ⟨"/out/a.m4a", 100, 500, "h1", some "alac", some 44100, some 16,
              some 400, some 180, "t"⟩
      else none)
      { album_id := "al", source_path := "/lib/a.flac",
        output_path := "/out/a.m4a", action := Action.ALAC_PRESERVE,
        target_codec := "alac", target_sample_rate := 44100,
        target_bit_depth := some 16,
        tags := ⟨none, none, none, none, none, none, none, none, none, false⟩,
        source_mtime := 100, source_size := 500, settings_hash := "h1" }
      ⟨"/out/a.m4a", 100, 500, "h1", some "alac", some 44100, some 16,
       some 400, some 180, "t"⟩).2 (by simp)
  rw [h, if_pos]
  refine ⟨?_, rfl, rfl, rfl⟩
  norm_num

/-- An empty tag payload, for concrete example jobs. -/
def exTags : TagsPayload :=
  ⟨none, none, none, none, none, none, none, none, none, false⟩

/-- A concrete example job (ALAC preserve of a CD-quality FLAC). -/
def exJob : TrackJob :=
  { album_id := "al", source_path := "/lib/a.flac", output_path := "/out/a.m4a",
    action := Action.ALAC_PRESERVE, target_codec := "alac",
    target_sample_rate := 44100, target_bit_depth := some 16, tags := exTags,
    source_mtime := 100, source_size := 500, settings_hash := "h1" }

/-- A second concrete example job. -/
def exJob2 : TrackJob :=
  { exJob with source_path := "/lib/b.flac", output_path := "/out/b.m4a" }

/-- A concrete unsuccessful worker result. -/
def exFailResult : TrackResult :=
  { source_path := "/lib/a.flac", success := false,
    error_code := some "ENCODE_FAIL", error_message := some "boom" }

/-- A concrete successful worker result. -/
def exOkResult : TrackResult :=
  { source_path := "/lib/a.flac", output_path := some "/out/a.m4a",
    success := true }

/-- The empty cache table. -/
def emptyCache : Cache := fun _ => none

/-- The collection loop only ever records successful results in its
`cache.store` trace. -/
theorem collectResults_stores_success (fail_fast : Bool) (built_at : String) :
    ∀ (outs : List (TrackJob × WorkerOutcome)) (st : RunState),
      (∀ p ∈ st.stores, p.2.success = true) →
      ∀ p ∈ (collectResults fail_fast built_at outs st).stores,
        p.2.success = true := by
  intro outs
  induction outs with
  | nil =>
    intro st h
    simpa [collectResults] using h
  | cons o rest ih =>
    intro st h
    obtain ⟨job, w⟩ := o
    cases w with
    | ok r =>
      by_cases hs : r.success = true
      · simp only [collectResults, hs, if_true]
        apply ih
        intro p hp
        rcases List.mem_append.mp hp with hp | hp
        · exact h p hp
        · rcases List.mem_singleton.mp hp with rfl
          exact hs
      · simp only [collectResults, hs, if_false, Bool.false_eq_true]
        exact ih _ h
    | exn e =>
      cases hf : fail_fast with
      | true =>
        simp only [collectResults, hf, if_true]
        exact h
      | false =>
        simp only [hf] at ih
        simp only [collectResults, hf, if_false, Bool.false_eq_true]
        exact ih _ h

/-- The collection loop leaves the cache untouched when every outcome is a
raised exception or an unsuccessful result. -/
theorem collectResults_cache_unchanged (fail_fast : Bool) (built_at : String) :
    ∀ (outs : List (TrackJob × WorkerOutcome)) (st : RunState),
      (∀ o ∈ outs, o.2.isExn = true ∨ ∃ r, o.2 = .ok r ∧ r.success = false) →
      (collectResults fail_fast built_at outs st).cache = st.cache := by
  intro outs
  induction outs with
  | nil =>
    intro st _
    rfl
  | cons o rest ih =>
    intro st h
    obtain ⟨job, w⟩ := o
    cases w with
    | ok r =>
      have hs : r.success = false := by
        rcases h (job, .ok r) (List.mem_cons_self _ _) with h1 | ⟨r', hr', hs⟩
        · simp [WorkerOutcome.isExn] at h1
        · cases hr'
          exact hs
      simp only [collectResults, hs, if_false, Bool.false_eq_true]
      exact ih _ (fun o ho => h o (List.mem_cons_of_mem _ ho))
    | exn e =>
      cases hf : fail_fast with
      | true =>
        simp only [collectResults, hf, if_true]
      | false =>
        simp only [hf] at ih
        simp only [collectResults, hf, if_false, Bool.false_eq_true]
        exact ih _ (fun o ho => h o (List.mem_cons_of_mem _ ho))

/-- C3: `cacheStore` leaves the cache unchanged for an unsuccessful result;
for a successful result it inserts/replaces exactly the row keyed by the
job's source path and no other key.  In the pipeline, every `cache.store`
invocation carries a successful result, and a run in which every job ends in
an exception or an unsuccessful result leaves the cache unchanged. -/
theorem c3_store_only_on_success (cache : Cache) (job : TrackJob)
    (result : TrackResult) (built_at : String) (config : ApplyConfig)
    (outcomes : List (TrackJob × WorkerOutcome)) :
    (result.success = false → cacheStore cache job result built_at = cache) ∧
    (result.success = true →
      (cacheStore cache job result built_at) job.source_path =
        some ⟨job.output_path, job.source_mtime, job.source_size,
              job.settings_hash, result.output_codec, result.output_sample_rate,
              result.output_bit_depth, result.output_size_bytes,
              result.duration_seconds, built_at⟩ ∧
      ∀ key, key ≠ job.source_path →
        (cacheStore cache job result built_at) key = cache key) ∧
    (∀ p ∈ (run_parallel config cache built_at outcomes).state.stores,
      p.2.success = true) ∧
    ((∀ o ∈ outcomes, o.2.isExn = true ∨ ∃ r, o.2 = .ok r ∧ r.success = false) →
      (run_parallel config cache built_at outcomes).state.cache = cache) := by
  refine ⟨?_, ?_, ?_, ?_⟩
  · intro h
    simp [cacheStore, h]
  · intro h
    constructor
    · simp [cacheStore, h]
    · intro key hk
      simp [cacheStore, h, hk]
  · exact collectResults_stores_success config.fail_fast built_at outcomes
      { cache := cache } (by simp)
  · intro h
    exact collectResults_cache_unchanged config.fail_fast built_at outcomes
      { cache := cache } h

/-- C3 witness: storing an unsuccessful result leaves a concrete empty
cache unchanged, a run whose only outcome is that unsuccessful result
leaves the pipeline cache unchanged, and storing a successful result
populates exactly the job's key. -/
theorem c3_store_only_on_success_witness :
    cacheStore emptyCache exJob exFailResult "t" = emptyCache ∧
    (run_parallel { output_root := "out" } emptyCache "t"
      [(exJob, .ok exFailResult)]).state.cache = emptyCache ∧
    (cacheStore emptyCache exJob exOkResult "t") exJob.source_path =
      some ⟨exJob.output_path, exJob.source_mtime, exJob.source_size,
            exJob.settings_hash, exOkResult.output_codec,
            exOkResult.output_sample_rate, exOkResult.output_bit_depth,
            exOkResult.output_size_bytes, exOkResult.duration_seconds, "t"⟩ := by
  refine ⟨?_, ?_, ?_⟩
  · exact (c3_store_only_on_success emptyCache exJob exFailResult "t"
      { output_root := "out" } []).1 (by decide)
  · exact (c3_store_only_on_success emptyCache exJob exFailResult "t"
      { output_root := "out" } [(exJob, .ok exFailResult)]).2.2.2
      (by intro o ho
          simp only [List.mem_singleton] at ho
          subst ho
          exact Or.inr ⟨exFailResult, rfl, by decide⟩)
  · exact ((c3_store_only_on_success emptyCache exJob exOkResult "t"
      { output_root := "out" } []).2.1 (by decide)).1

/-- Cancellation is requested by the collection loop exactly when fail-fast
is configured and some collected outcome is a raised exception. -/
theorem collectResults_cancel (fail_fast : Bool) (built_at : String) :
    ∀ (outs : List (TrackJob × WorkerOutcome)) (st : RunState),
      (collectResults fail_fast built_at outs st).cancel_requested =
        (st.cancel_requested ||
          (fail_fast && outs.any (fun o => o.2.isExn))) := by
  intro outs
  induction outs with
  | nil =>
    intro st
    simp [collectResults]
  | cons o rest ih =>
    intro st
    obtain ⟨job, w⟩ := o
    cases w with
    | ok r =>
      by_cases hs : r.success = true <;>
        simp [collectResults, hs, ih, WorkerOutcome.isExn]
    | exn e =>
      cases hf : fail_fast with
      | true =>
        simp [collectResults, hf, WorkerOutcome.isExn]
      | false =>
        simp only [hf] at ih
        simp [collectResults, hf, ih, WorkerOutcome.isExn]

/-- When fail-fast is off, or when no outcome raises, the collection loop
appends one result per outcome. -/
theorem collectResults_results_length (fail_fast : Bool) (built_at : String) :
    ∀ (outs : List (TrackJob × WorkerOutcome)) (st : RunState),
      (fail_fast = false ∨ ∀ o ∈ outs, o.2.isExn = false) →
      (collectResults fail_fast built_at outs st).results.length =
        st.results.length + outs.length := by
  intro outs
  induction outs with
  | nil =>
    intro st _
    simp [collectResults]
  | cons o rest ih =>
    intro st h
    obtain ⟨job, w⟩ := o
    have hrest : fail_fast = false ∨ ∀ o ∈ rest, o.2.isExn = false := by
      rcases h with h | h
      · exact Or.inl h
      · exact Or.inr fun o ho => h o (List.mem_cons_of_mem _ ho)
    cases w with
    | ok r =>
      by_cases hs : r.success = true <;>
        simp [collectResults, hs, ih _ hrest] <;> omega
    | exn e =>
      cases hf : fail_fast with
      | true =>
        rcases h with h | h
        · exact absurd hf (by simp [h])
        · exact absurd (h (job, .exn e) (List.mem_cons_self _ _))
            (by simp [WorkerOutcome.isExn])
      | false =>
        subst hf
        simp only [collectResults, Bool.false_eq_true, if_false, List.length_cons]
        rw [ih _ hrest]
        simp
        omega

/-- C5 counterexample: with fail-fast configured, a job that returns an
unsuccessful result (success = false) is counted as a failure but does not
trigger cancellation, and the remaining job's result is still collected —
the shutdown/cancel call runs only in the exception handler. -/
theorem c5_counterexample :
    exFailResult.success = false ∧
    (run_parallel { output_root := "out", fail_fast := true } emptyCache "t"
      [(exJob, .ok exFailResult),
       (exJob2, .ok exOkResult)]).state.failed_jobs = 1 ∧
    (run_parallel { output_root := "out", fail_fast := true } emptyCache "t"
      [(exJob, .ok exFailResult),
       (exJob2, .ok exOkResult)]).state.cancel_requested = false ∧
    (run_parallel { output_root := "out", fail_fast := true } emptyCache "t"
      [(exJob, .ok exFailResult),
       (exJob2, .ok exOkResult)]).state.results.length = 2 := by
  refine ⟨by decide, ?_, ?_, ?_⟩ <;> rfl

/-- C5 (amended): every job is submitted to the pool, in order, before any
result is collected (so nothing is ever "not submitted" after a failure);
cancellation of in-flight work is requested exactly when fail-fast is
configured and collecting some job's result raises an exception — a job
merely returning an unsuccessful result never triggers it; and when
fail-fast is off, or no result raises, every job's result is collected. -/
theorem c5_fail_fast_behavior (config : ApplyConfig) (cache : Cache)
    (built_at : String) (outcomes : List (TrackJob × WorkerOutcome)) :
    (run_parallel config cache built_at outcomes).submitted =
      outcomes.map Prod.fst ∧
    (run_parallel config cache built_at outcomes).state.cancel_requested =
      (config.fail_fast && outcomes.any (fun o => o.2.isExn)) ∧
    (config.fail_fast = false →
      (run_parallel config cache built_at outcomes).state.results.length =
        outcomes.length) ∧
    ((∀ o ∈ outcomes, o.2.isExn = false) →
      (run_parallel config cache built_at outcomes).state.results.length =
        outcomes.length) := by
  refine ⟨rfl, ?_, ?_, ?_⟩
  · simpa using collectResults_cancel config.fail_fast built_at outcomes
      { cache := cache }
  · intro h
    simpa using collectResults_results_length config.fail_fast built_at outcomes
      { cache := cache } (Or.inl h)
  · intro h
    simpa using collectResults_results_length config.fail_fast built_at outcomes
      { cache := cache } (Or.inr h)

/-- C5 witness: with fail-fast off, a run over one unsuccessful result and
one exception collects both results and requests no cancellation. -/
theorem c5_fail_fast_behavior_witness :
    (run_parallel { output_root := "out" } emptyCache "t"
      [(exJob, .ok exFailResult), (exJob2, .exn "crash")]).submitted =
      [exJob, exJob2] ∧
    (run_parallel { output_root := "out" } emptyCache "t"
      [(exJob, .ok exFailResult), (exJob2, .exn "crash")]).state.results.length
      = 2 := by
  refine ⟨?_, ?_⟩
  · exact (c5_fail_fast_behavior { output_root := "out" } emptyCache "t"
      [(exJob, .ok exFailResult), (exJob2, .exn "crash")]).1
  · exact (c5_fail_fast_behavior { output_root := "out" } emptyCache "t"
      [(exJob, .ok exFailResult), (exJob2, .exn "crash")]).2.2.1 rfl

/-- C6: when resolving one album raises a `ValidationError`, the resulting
plan records that error under that album's id, and its jobs and skipped
lists are exactly those of the plan resolved from the album list with the
failing album removed — all other groups are unaffected and resolution is
not aborted. -/
theorem c6_partial_failure_isolation (pre post : List Album) (bad : Album)
    (decisions : List (String × Decision)) (config : ApplyConfig)
    (tool_version : String) (e : ValidationError)
    (h : resolve_album_action bad (lookupDecision decisions bad.album_id) config
      = .error e) :
    (resolve_build_plan (pre ++ bad :: post) decisions config tool_version).jobs
      = (resolve_build_plan (pre ++ post) decisions config tool_version).jobs ∧
    (resolve_build_plan (pre ++ bad :: post) decisions config
        tool_version).skipped_albums
      = (resolve_build_plan (pre ++ post) decisions config
          tool_version).skipped_albums ∧
    (⟨bad.album_id, e.error_code, e.message⟩ : PlanError) ∈
      (resolve_build_plan (pre ++ bad :: post) decisions config
        tool_version).validation_errors := by
  induction pre with
  | nil =>
    simp only [List.nil_append]
    refine ⟨?_, ?_, ?_⟩ <;> simp [resolve_build_plan, h]
  | cons a pre ih =>
    obtain ⟨ih1, ih2, ih3⟩ := ih
    simp only [List.cons_append, resolve_build_plan]
    cases hra : resolve_album_action a (lookupDecision decisions a.album_id)
        config with
    | error e' =>
      exact ⟨ih1, ih2, List.mem_cons_of_mem _ ih3⟩
    | ok resolved =>
      by_cases hskip : resolved.skip = true
      · simp only [hskip, if_true]
        exact ⟨ih1, congrArg (fun l => a.album_id :: l) ih2, ih3⟩
      · simp only [hskip, if_false, Bool.false_eq_true]
        exact ⟨congrArg
          (fun l => resolve_track_jobs a resolved config tool_version ++ l) ih1,
          ih2, ih3⟩

/-- A track for the concrete example albums. -/
def exTrack : Track :=
  { path := "/lib/g1/01.mp3", format := .MP3, sample_rate := 44100,
    channels := 2, duration_seconds := 180, title := some "Song",
    track_number := some 1, mtime := 100, size_bytes := 500 }

/-- A valid MP3-only example album. -/
def exAlbumMp3 : Album :=
  { album_id := "g1", source_path := "/lib/g1", tracks := [exTrack],
    metadata := { artist := "Artist", album := "Album" },
    source_formats := {AudioFormat.MP3} }

/-- An OGG-only example album (default action AAC) whose decision carries an
invalid bitrate, so resolving it raises a `ValidationError`. -/
def exAlbumOgg : Album :=
  { album_id := "bad", source_path := "/lib/bad", tracks := [],
    metadata := {}, source_formats := {AudioFormat.OGG} }

/-- The decision sheet pairing the bad album with bitrate 999. -/
def exDecisions : List (String × Decision) :=
  [("bad", { aac_target_kbps := some 999 })]

/-- A concrete apply configuration. -/
def exConfig : ApplyConfig := { output_root := "/out" }

/-- C6 witness: with the invalid-bitrate OGG album present, the plan's jobs
equal those of the plan without it, and the error is recorded under its id. -/
theorem c6_partial_failure_isolation_witness :
    (resolve_build_plan [exAlbumMp3, exAlbumOgg] exDecisions exConfig
      "0.1.0").jobs =
      (resolve_build_plan [exAlbumMp3] exDecisions exConfig "0.1.0").jobs ∧
    (⟨"bad", "INVALID_ENUM", "Invalid AAC bitrate 999"⟩ : PlanError) ∈
      (resolve_build_plan [exAlbumMp3, exAlbumOgg] exDecisions exConfig
        "0.1.0").validation_errors := by
  have h := c6_partial_failure_isolation [exAlbumMp3] [] exAlbumOgg exDecisions
    exConfig "0.1.0" ⟨"Invalid AAC bitrate 999", "INVALID_ENUM"⟩ rfl
  exact ⟨h.1, h.2.2⟩

/-- The decision used in the C8 counterexample: an unrecognized action
string together with an invalid bitrate. -/
def c8Decision : Decision :=
  { user_action := some "GARBAGE", aac_target_kbps := some 999 }

/-- C8 counterexample: for the OGG-only album (whose computed default is
AAC), a decision whose user-action string is unrecognized does not always
resolve successfully — with an invalid bitrate also supplied,
`resolve_album_action` raises `ValidationError` (and `resolve_build_plan`
then records a validation error for the group). -/
theorem c8_counterexample :
    (∃ e, validate_action "GARBAGE" = .error e) ∧
    resolve_album_action exAlbumOgg c8Decision exConfig =
      .error ⟨"Invalid AAC bitrate 999", "INVALID_ENUM"⟩ ∧
    (resolve_build_plan [exAlbumOgg] [("bad", c8Decision)] exConfig
      "0.1.0").validation_errors =
      [⟨"bad", "INVALID_ENUM", "Invalid AAC bitrate 999"⟩] := by
  exact ⟨⟨⟨"Invalid action GARBAGE", "INVALID_ENUM"⟩, rfl⟩, rfl, rfl⟩

/-- C8 (amended): when the skip flag is not set and the decision's
user-action string is unrecognized, `resolve_album_action` behaves exactly
as if no user action had been supplied — in particular, whenever it
succeeds, it resolves to the computed default action with provenance
"default" and no recorded user action.  (It can still raise, exactly as the
no-user-action call would, when the default action is AAC and the supplied
bitrate is invalid.) -/
theorem c8_invalid_action_fallback (album : Album) (decision : Decision)
    (config : ApplyConfig) (hskip : decision.skip = false)
    (hbad : ∀ s, decision.user_action = some s → s ≠ "" →
      ∃ e, validate_action s = .error e) :
    resolve_album_action album decision config =
      resolve_album_action album { decision with user_action := none } config ∧
    ∀ r, resolve_album_action album decision config = .ok r →
      r.action = compute_default_action album ∧ r.source = "default" ∧
      r.user_action = none := by
  obtain ⟨ua, kb, sk⟩ := decision
  simp only at hskip
  subst hskip
  have key : resolve_album_action album ⟨ua, kb, false⟩ config =
      resolve_album_action album ⟨none, kb, false⟩ config := by
    cases hu : ua with
    | none => rfl
    | some s =>
      by_cases hs : s = ""
      · subst hs
        rfl
      · obtain ⟨e, he⟩ := hbad s hu hs
        simp [resolve_album_action, pyTruthyStr, hs, he]
  refine ⟨key, ?_⟩
  intro r hr
  rw [key] at hr
  simp only [resolve_album_action, pyTruthyStr, Bool.false_eq_true, if_false,
    Option.getD_none] at hr
  cases hv : (if compute_default_action album = Action.AAC then
      (validate_aac_bitrate kb (some config.allowed_aac_bitrates)).map some
    else Except.ok none) with
  | error e =>
    rw [hv] at hr
    cases hr
  | ok v =>
    rw [hv] at hr
    cases hr
    exact ⟨rfl, rfl, rfl⟩

/-- C8 witness: on the MP3-only album with no bitrate supplied, the
unrecognized action string "FOO" resolves identically to no user action:
default PASS_MP3 with provenance "default". -/
theorem c8_invalid_action_fallback_witness :
    resolve_album_action exAlbumMp3 { user_action := some "FOO" } exConfig =
      resolve_album_action exAlbumMp3 {} exConfig ∧
    ∀ r, resolve_album_action exAlbumMp3 { user_action := some "FOO" } exConfig
        = .ok r →
      r.action = compute_default_action exAlbumMp3 ∧ r.source = "default" ∧
      r.user_action = none := by
  exact c8_invalid_action_fallback exAlbumMp3 { user_action := some "FOO" }
    exConfig rfl
    (fun s hs hne => by
      cases hs
      exact ⟨⟨"Invalid action FOO", "INVALID_ENUM"⟩, rfl⟩)

/-- C9 counterexample: two tracks that differ only in their source path
(identical mtime, size and all settings) receive the identical settings
hash — the source path is not an input of the digest, contradicting the
claim that the fingerprint (including the path) is hashed. -/
theorem c9_counterexample :
    compute_settings_hash exTrack Action.AAC (some 256) 44100 none "0.1.0" =
      compute_settings_hash { exTrack with path := "/other/place.flac" }
        Action.AAC (some 256) 44100 none "0.1.0" ∧
    exTrack.path ≠ ({ exTrack with path := "/other/place.flac" } : Track).path := by
  exact ⟨rfl, by decide⟩

/-- C9 (amended): the settings hash is the first 16 hex characters of the
SHA-256 digest of the `:`-joined component list built from exactly the
source modification time, byte size, action value, bitrate (0 when absent),
target sample rate, target bit depth (0 when absent) and tool version —
so identical values of these components always give the identical hash;
the source path is not an input (changing only it never changes the hash);
and an absent bitrate or bit depth is digested identically to 0. -/
theorem c9_settings_hash (t : Track) (p : String) (a : Action)
    (br : Option Int) (sr : Int) (bd : Option Int) (v : String) :
    compute_settings_hash t a br sr bd v =
      (Sha256.hexdigest (String.intercalate ":"
        (settingsHashComponents t.mtime t.size_bytes a br sr bd v))).take 16 ∧
    compute_settings_hash { t with path := p } a br sr bd v =
      compute_settings_hash t a br sr bd v ∧
    compute_settings_hash t a none sr bd v =
      compute_settings_hash t a (some 0) sr bd v ∧
    compute_settings_hash t a br sr none v =
      compute_settings_hash t a br sr (some 0) v :=
  ⟨rfl, rfl, rfl, rfl⟩

/-- A probe environment under which verification of `exJob`'s temp file
succeeds (correct codec and sample rate). -/
def exProbeOk : ProbeEnv :=
  { file_exists := true, size_bytes := 400,
    probe := .completed 0 ""
      (.parsed [⟨"audio", some "alac", some 44100, some 16, none, some 180⟩]
        { duration := some 180 }) }

/-- A probe environment under which verification fails (temp file absent). -/
def exProbeMissing : ProbeEnv :=
  { file_exists := false, size_bytes := 0, probe := .timedOut }

/-- The environment for the C4 failing input: FFmpeg exits with status 1. -/
def c4EnvEncodeFail : ConvertEnv :=
  { encode := .completed 1 "boom", probe := exProbeMissing }

/-- The environment where encoding succeeds but verification fails. -/
def c4EnvVerifyFail : ConvertEnv :=
  { encode := .completed 0 "", probe := exProbeMissing }

/-- C4: on the failing input — FFmpeg exiting with a non-zero status — the
returned result is an `ENCODE_FAIL` failure but `_cleanup(temp_path)` is
never invoked, leaving any temp file FFmpeg created behind; by contrast the
verification-failure path does invoke the cleanup.  This contradicts the
specified "any failure after temp-file creation triggers best-effort
deletion of the temp file". -/
theorem c4_encode_fail_no_cleanup :
    (convert_track exJob none c4EnvEncodeFail).result.success = false ∧
    (convert_track exJob none c4EnvEncodeFail).result.error_code =
      some "ENCODE_FAIL" ∧
    (convert_track exJob none c4EnvEncodeFail).cleanup_called = false ∧
    (convert_track exJob none c4EnvVerifyFail).cleanup_called = true := by
  exact ⟨rfl, rfl, rfl, rfl⟩

/-- A non-empty string prepended to anything yields a non-empty string. -/
theorem append_ne_empty (a b : String) (ha : a ≠ "") : a ++ b ≠ "" := by
  intro h
  apply ha
  have hd := congrArg String.data h
  simp only [String.data_append] at hd
  rcases List.append_eq_nil.mp hd with ⟨h1, _⟩
  cases a
  simp_all

/-- Every failing `verify_output` result carries a non-empty error
message. -/
theorem verify_output_fail_message (output_path : String) (job : TrackJob)
    (env : ProbeEnv) :
    (verify_output output_path job env).success = false →
    ∃ m, (verify_output output_path job env).error_message = some m ∧
      m ≠ "" := by
  unfold verify_output
  repeat' split
  all_goals intro hs
  all_goals first
    | (refine ⟨_, rfl, ?_⟩
       first
        | decide
        | exact append_ne_empty _ _ (by decide))
    | cases hs

/-- The environment for the C10 counterexample: encode and verification
succeed, but tag writing raises an exception whose text is empty. -/
def c10Env : ConvertEnv := { probe := exProbeOk, tag_exn := some "" }

/-- C10 counterexample: a tag-write exception with empty text produces a
failure result whose error message is set to the empty string — the claim's
"a non-empty error message is set" fails (the code copies `str(e)`
verbatim). -/
theorem c10_counterexample :
    (convert_track exJob none c10Env).result.success = false ∧
    (convert_track exJob none c10Env).result.error_code =
      some "TAG_WRITE_FAIL" ∧
    (convert_track exJob none c10Env).result.error_message = some "" ∧
    ("" : String).length = 0 := by
  exact ⟨rfl, rfl, rfl, rfl⟩

/-- C10 (amended): every result of `convert_track` satisfies — on success,
the output path is the job's output path and the observed output attributes
are exactly those reported by verification of the temp file; on failure,
the output path is `none`, the error code is one of ENCODE_FAIL,
VERIFICATION_FAIL, TAG_WRITE_FAIL, IO_ERROR, and an error message is set
(non-`None`), which can be empty only when it is the verbatim text of a
caught exception (tag write, encode, copy or rename). -/
theorem c10_result_shape (job : TrackJob) (config : Option Config)
    (env : ConvertEnv) :
    ((convert_track job config env).result.success = true →
      (convert_track job config env).result.output_path = some job.output_path ∧
      (convert_track job config env).result.output_codec =
        (verify_output (tempPathOf job.output_path) job env.probe).codec ∧
      (convert_track job config env).result.output_sample_rate =
        (verify_output (tempPathOf job.output_path) job env.probe).sample_rate ∧
      (convert_track job config env).result.output_bit_depth =
        (verify_output (tempPathOf job.output_path) job env.probe).bit_depth ∧
      (convert_track job config env).result.output_size_bytes =
        (verify_output (tempPathOf job.output_path) job env.probe).size_bytes ∧
      (convert_track job config env).result.duration_seconds =
        (verify_output (tempPathOf job.output_path) job env.probe).duration) ∧
    ((convert_track job config env).result.success = false →
      (convert_track job config env).result.output_path = none ∧
      ((convert_track job config env).result.error_code = some "ENCODE_FAIL" ∨
       (convert_track job config env).result.error_code =
         some "VERIFICATION_FAIL" ∨
       (convert_track job config env).result.error_code =
         some "TAG_WRITE_FAIL" ∨
       (convert_track job config env).result.error_code = some "IO_ERROR") ∧
      ∃ m, (convert_track job config env).result.error_message = some m ∧
        (m = "" → env.tag_exn = some "" ∨ env.encode = .raised "" ∨
          env.copy_exn = some "" ∨ env.rename_exn = some "")) := by
  obtain ⟨enc, copyx, probe, tagx, renx⟩ := env
  by_cases hp : job.action = Action.PASS_MP3
  all_goals simp only [convert_track, handlePassthrough]
  · rw [if_pos hp]
    cases copyx with
    | some e =>
      refine ⟨fun hs => by simp [failResult] at hs,
        fun _ => ⟨rfl, Or.inr (Or.inr (Or.inr rfl)), e, rfl, fun h => ?_⟩⟩
      exact Or.inr (Or.inr (Or.inl (by rw [h])))
    | none =>
      by_cases hv : (verify_output (tempPathOf job.output_path) job
          probe).success = true
      · simp only [hv, not_true, if_neg, if_false]
        cases tagx with
        | some e =>
          refine ⟨fun hs => by simp [failResult] at hs,
            fun _ => ⟨rfl, Or.inr (Or.inr (Or.inl rfl)), e, rfl, fun h => ?_⟩⟩
          exact Or.inl (by rw [h])
        | none =>
          cases renx with
          | some e =>
            refine ⟨fun hs => by simp [failResult] at hs,
              fun _ => ⟨rfl, Or.inr (Or.inr (Or.inr rfl)), e, rfl, fun h => ?_⟩⟩
            exact Or.inr (Or.inr (Or.inr (by rw [h])))
          | none =>
            refine ⟨fun _ => ⟨rfl, rfl, rfl, rfl, rfl, rfl⟩,
              fun hs => by simp [successResult] at hs⟩
      · simp only [hv, not_false_iff, if_pos, if_true]
        obtain ⟨m, hm, hne⟩ := verify_output_fail_message
          (tempPathOf job.output_path) job probe (by simpa using hv)
        refine ⟨fun hs => by simp [failResult] at hs,
          fun _ => ⟨rfl, Or.inr (Or.inl rfl), m, ?_, fun h => absurd h hne⟩⟩
        simpa [failResult] using hm
  · rw [if_neg hp]
    cases enc with
    | timedOut =>
      refine ⟨fun hs => by simp [failResult] at hs,
        fun _ => ⟨rfl, Or.inl rfl, _, rfl, fun h => absurd h ?_⟩⟩
      exact append_ne_empty "FFmpeg timed out after " _ (by decide)
    | raised e =>
      refine ⟨fun hs => by simp [failResult] at hs,
        fun _ => ⟨rfl, Or.inl rfl, e, rfl, fun h => ?_⟩⟩
      exact Or.inr (Or.inl (by rw [h]))
    | completed rc stderr =>
      dsimp only
      by_cases hrc : rc ≠ 0
      · rw [if_pos hrc]
        refine ⟨fun hs => by simp [failResult] at hs,
          fun _ => ⟨rfl, Or.inl rfl, _, rfl, fun h => absurd h ?_⟩⟩
        exact append_ne_empty "FFmpeg failed: " _ (by decide)
      · rw [if_neg hrc]
        by_cases hv : (verify_output (tempPathOf job.output_path) job
            probe).success = true
        · simp only [hv, not_true, if_neg, if_false]
          cases tagx with
          | some e =>
            refine ⟨fun hs => by simp [failResult] at hs,
              fun _ => ⟨rfl, Or.inr (Or.inr (Or.inl rfl)), e, rfl,
                fun h => ?_⟩⟩
            exact Or.inl (by rw [h])
          | none =>
            cases renx with
            | some e =>
              refine ⟨fun hs => by simp [failResult] at hs,
                fun _ => ⟨rfl, Or.inl rfl, e, rfl, fun h => ?_⟩⟩
              exact Or.inr (Or.inr (Or.inr (by rw [h])))
            | none =>
              refine ⟨fun _ => ⟨rfl, rfl, rfl, rfl, rfl, rfl⟩,
                fun hs => by simp [successResult] at hs⟩
        · simp only [hv, not_false_iff, if_pos, if_true]
          obtain ⟨m, hm, hne⟩ := verify_output_fail_message
            (tempPathOf job.output_path) job probe (by simpa using hv)
          refine ⟨fun hs => by simp [failResult] at hs,
            fun _ => ⟨rfl, Or.inr (Or.inl rfl), m, ?_, fun h => absurd h hne⟩⟩
          simpa [failResult] using hm

/-- C10 witness: applying the result-shape theorem at the concrete
empty-text tag-write environment. -/
theorem c10_result_shape_witness :
    (convert_track exJob none c10Env).result.output_path = none ∧
    ((convert_track exJob none c10Env).result.error_code = some "ENCODE_FAIL" ∨
     (convert_track exJob none c10Env).result.error_code =
       some "VERIFICATION_FAIL" ∨
     (convert_track exJob none c10Env).result.error_code =
       some "TAG_WRITE_FAIL" ∨
     (convert_track exJob none c10Env).result.error_code = some "IO_ERROR") ∧
    ∃ m, (convert_track exJob none c10Env).result.error_message = some m ∧
      (m = "" → c10Env.tag_exn = some "" ∨ c10Env.encode = .raised "" ∨
        c10Env.copy_exn = some "" ∨ c10Env.rename_exn = some "") := by
  exact (c10_result_shape exJob none c10Env).2 rfl

end IpodRB
